import Mathlib

/-!
Verification of the `builder-space` Pulumi infrastructure repository.

The Python source is shallowly embedded: pure control flow becomes Lean
functions; a Python call that may raise becomes `Except`; side effects that
matter to the claims (resources constructed, sleeps performed, calls made)
are returned explicitly as data.  Python truthiness of strings/lists is
modelled explicitly where the source relies on it (`if s:` on a string is
`s ≠ ""`, on a list it is non-emptiness).  Python floats only ever get
doubled in this code base (`delay *= 2`), which is exact in binary floating
point, so delays are modelled by `ℚ`.
-/

/-- A Python exception value, as far as the claims need to distinguish them. -/
inductive PyErr where
  | typeError
  | indexError
  | exc (tag : Nat)
  deriving DecidableEq, Repr

/-- Test for `Except.ok`, used to phrase "the lookup succeeds". -/
def exceptIsOk {ε α : Type} : Except ε α → Bool
  | Except.ok _ => true
  | Except.error _ => false

/-- Test for `Except.error`, used to phrase "the call raises". -/
def exceptIsError {ε α : Type} : Except ε α → Bool
  | Except.error _ => true
  | Except.ok _ => false

/-!
## `retry_with_backoff` (bootstrap/modules/state_storage/resource_utils.py)

```python
def retry_with_backoff(func, max_retries: int = 3, initial_delay: float = 1.0):
    delay = initial_delay
    last_exception = None
    for attempt in range(max_retries + 1):
        try:
            return func()
        except Exception as e:
            last_exception = e
            if attempt < max_retries:
                pulumi.log.warn(...)
                time.sleep(delay)
                delay *= 2  # Exponential backoff
            else:
                pulumi.log.error(...)
    raise last_exception
```

`func` is impure: its i-th call (0-based) may raise or return, so it is
embedded as `func : Nat → Except ε α` giving the outcome of each call.
The embedding returns the final outcome together with the observable
effects: how many times `func` was called and the list of delays slept.
-/

/-- Observable outcome of a `retry_with_backoff` run: the returned value or
raised exception, the number of calls of `func`, and the sleeps performed,
in order. -/
structure RetryTrace (ε α : Type) where
  result : Except ε α
  calls : Nat
  sleeps : List ℚ
  deriving Repr

instance {ε α : Type} [DecidableEq ε] [DecidableEq α] :
    DecidableEq (Except ε α) := fun x y =>
  match x, y with
  | Except.ok a, Except.ok b =>
    if h : a = b then isTrue (by rw [h]) else isFalse (by simp [h])
  | Except.ok _, Except.error _ => isFalse (by simp)
  | Except.error _, Except.ok _ => isFalse (by simp)
  | Except.error e, Except.error f =>
    if h : e = f then isTrue (by rw [h]) else isFalse (by simp [h])

instance {ε α : Type} [DecidableEq ε] [DecidableEq α] :
    DecidableEq (RetryTrace ε α) := fun x y =>
  match x, y with
  | ⟨r, c, s⟩, ⟨r', c', s'⟩ =>
    if h : r = r' ∧ c = c' ∧ s = s' then
      isTrue (by obtain ⟨h1, h2, h3⟩ := h; rw [h1, h2, h3])
    else
      isFalse (by intro he; cases he; exact h ⟨rfl, rfl, rfl⟩)

/-- The loop of `retry_with_backoff`, from the attempt numbered `attempt`
with `remaining` further attempts allowed after it and current `delay`. -/
def retryAux {ε α : Type} (func : Nat → Except ε α) :
    Nat → Nat → ℚ → RetryTrace ε α
  | attempt, 0, _ =>
    match func attempt with
    | Except.ok a => { result := Except.ok a, calls := 1, sleeps := [] }
    | Except.error e => { result := Except.error e, calls := 1, sleeps := [] }
  | attempt, Nat.succ r, delay =>
    match func attempt with
    | Except.ok a => { result := Except.ok a, calls := 1, sleeps := [] }
    | Except.error _ =>
      let t := retryAux func (attempt + 1) r (delay * 2)
      { result := t.result, calls := t.calls + 1, sleeps := delay :: t.sleeps }

/-- The function `retry_with_backoff(func, max_retries, initial_delay)`. -/
def retry_with_backoff {ε α : Type} (func : Nat → Except ε α)
    (max_retries : Nat) (initial_delay : ℚ) : RetryTrace ε α :=
  retryAux func 0 max_retries initial_delay

theorem retryAux_ok {ε α : Type} (func : Nat → Except ε α)
    (attempt remaining : Nat) (delay : ℚ) (a : α)
    (h : func attempt = Except.ok a) :
    retryAux func attempt remaining delay =
      { result := Except.ok a, calls := 1, sleeps := [] } := by
  cases remaining <;> simp [retryAux, h]

theorem retryAux_err_zero {ε α : Type} (func : Nat → Except ε α)
    (attempt : Nat) (delay : ℚ) (e : ε)
    (h : func attempt = Except.error e) :
    retryAux func attempt 0 delay =
      { result := Except.error e, calls := 1, sleeps := [] } := by
  simp [retryAux, h]

theorem retryAux_err_succ {ε α : Type} (func : Nat → Except ε α)
    (attempt r : Nat) (delay : ℚ) (e : ε)
    (h : func attempt = Except.error e) :
    retryAux func attempt (r + 1) delay =
      { result := (retryAux func (attempt + 1) r (delay * 2)).result,
        calls := (retryAux func (attempt + 1) r (delay * 2)).calls + 1,
        sleeps := delay :: (retryAux func (attempt + 1) r (delay * 2)).sleeps } := by
  simp [retryAux, h]

theorem range_map_double (delay : ℚ) (n : Nat) :
    (List.range (n + 1)).map (fun k => delay * 2 ^ k) =
      delay :: (List.range n).map (fun k => delay * 2 * 2 ^ k) := by
  rw [List.range_succ_eq_map, List.map_cons, List.map_map]
  refine congrArg₂ _ (by norm_num) ?_
  refine List.map_congr_left (fun k _ => ?_)
  simp only [Function.comp_apply, pow_succ]
  ring

theorem exceptIsError_iff {ε α : Type} (x : Except ε α) :
    exceptIsError x = true ↔ ∃ e, x = Except.error e := by
  cases x <;> simp [exceptIsError]

theorem retryAux_first_success {ε α : Type} (func : Nat → Except ε α) (a : α) :
    ∀ (i remaining attempt : Nat) (delay : ℚ), i ≤ remaining →
    (∀ j, j < i → exceptIsError (func (attempt + j)) = true) →
    func (attempt + i) = Except.ok a →
    retryAux func attempt remaining delay =
      { result := Except.ok a, calls := i + 1,
        sleeps := (List.range i).map (fun k => delay * 2 ^ k) } := by
  intro i
  induction i with
  | zero =>
    intro remaining attempt delay _ _ hok
    simp only [Nat.add_zero] at hok
    simpa using retryAux_ok func attempt remaining delay a hok
  | succ i ih =>
    intro remaining attempt delay hle hfail hok
    obtain ⟨e, he⟩ := (exceptIsError_iff (func (attempt + 0))).1
      (hfail 0 (Nat.succ_pos i))
    simp only [Nat.add_zero] at he
    obtain ⟨r, rfl⟩ : ∃ r, remaining = r + 1 :=
      ⟨remaining - 1, by omega⟩
    rw [retryAux_err_succ func attempt r delay e he]
    have hrec := ih r (attempt + 1) (delay * 2) (by omega)
      (fun j hj => by
        have := hfail (j + 1) (by omega)
        simpa [Nat.add_assoc, Nat.add_comm 1 j] using this)
      (by simpa [Nat.add_assoc, Nat.add_comm 1 i] using hok)
    rw [hrec, range_map_double]

theorem retryAux_all_fail {ε α : Type} (func : Nat → Except ε α) :
    ∀ (remaining attempt : Nat) (delay : ℚ) (e : ε),
    (∀ j, j < remaining → exceptIsError (func (attempt + j)) = true) →
    func (attempt + remaining) = Except.error e →
    retryAux func attempt remaining delay =
      { result := Except.error e, calls := remaining + 1,
        sleeps := (List.range remaining).map (fun k => delay * 2 ^ k) } := by
  intro remaining
  induction remaining with
  | zero =>
    intro attempt delay e _ hlast
    simp only [Nat.add_zero] at hlast
    simpa using retryAux_err_zero func attempt delay e hlast
  | succ r ih =>
    intro attempt delay e hfail hlast
    obtain ⟨e0, he0⟩ := (exceptIsError_iff (func (attempt + 0))).1
      (hfail 0 (Nat.succ_pos r))
    simp only [Nat.add_zero] at he0
    rw [retryAux_err_succ func attempt r delay e0 he0]
    have hrec := ih (attempt + 1) (delay * 2) e
      (fun j hj => by
        have := hfail (j + 1) (by omega)
        simpa [Nat.add_assoc, Nat.add_comm 1 j] using this)
      (by simpa [Nat.add_assoc, Nat.add_comm 1 r] using hlast)
    rw [hrec, range_map_double]

theorem retryAux_shape {ε α : Type} (func : Nat → Except ε α) :
    ∀ (remaining attempt : Nat) (delay : ℚ),
    (retryAux func attempt remaining delay).sleeps =
      (List.range ((retryAux func attempt remaining delay).calls - 1)).map
        (fun k => delay * 2 ^ k) ∧
    1 ≤ (retryAux func attempt remaining delay).calls ∧
    (retryAux func attempt remaining delay).calls ≤ remaining + 1 := by
  intro remaining
  induction remaining with
  | zero =>
    intro attempt delay
    cases h : func attempt with
    | ok a => simp [retryAux_ok func attempt 0 delay a h]
    | error e => simp [retryAux_err_zero func attempt delay e h]
  | succ r ih =>
    intro attempt delay
    cases h : func attempt with
    | ok a => simp [retryAux_ok func attempt (r + 1) delay a h]
    | error e =>
      rw [retryAux_err_succ func attempt r delay e h]
      dsimp only
      obtain ⟨hsl, hlo, hhi⟩ := ih (attempt + 1) (delay * 2)
      refine ⟨?_, by omega, by omega⟩
      obtain ⟨c, hc⟩ : ∃ c, (retryAux func (attempt + 1) r (delay * 2)).calls
          = c + 1 := ⟨(retryAux func (attempt + 1) r (delay * 2)).calls - 1, by omega⟩
      simp only [hc] at hsl ⊢
      simp only [Nat.add_sub_cancel] at hsl ⊢
      rw [hsl, range_map_double]

/-- C2: if the i-th call of `func` (0-based, `i ≤ max_retries`) is the first
that returns without raising, `retry_with_backoff` returns that call's result
after exactly `i + 1` calls of `func`; if all `max_retries + 1` calls raise,
`retry_with_backoff` raises the exception raised by the last call. -/
theorem retry_with_backoff_correct {ε α : Type} (func : Nat → Except ε α)
    (max_retries : Nat) (initial_delay : ℚ) (i : Nat) (a : α) (e : ε) :
    (i ≤ max_retries → (∀ j, j < i → exceptIsError (func j) = true) →
      func i = Except.ok a →
      (retry_with_backoff func max_retries initial_delay).result = Except.ok a ∧
      (retry_with_backoff func max_retries initial_delay).calls = i + 1) ∧
    ((∀ j, j < max_retries → exceptIsError (func j) = true) →
      func max_retries = Except.error e →
      (retry_with_backoff func max_retries initial_delay).result =
        Except.error e ∧
      (retry_with_backoff func max_retries initial_delay).calls =
        max_retries + 1) := by
  constructor
  · intro hle hfail hok
    have h := retryAux_first_success func a i max_retries 0 initial_delay hle
      (fun j hj => by simpa using hfail j hj) (by simpa using hok)
    rw [retry_with_backoff, h]
    exact ⟨rfl, rfl⟩
  · intro hfail hlast
    have h := retryAux_all_fail func max_retries 0 initial_delay e
      (fun j hj => by simpa using hfail j hj) (by simpa using hlast)
    rw [retry_with_backoff, h]
    exact ⟨rfl, rfl⟩

/-- A call behaviour whose first call raises and whose later calls return 42. -/
def exFuncSucceeds : Nat → Except PyErr Nat := fun j =>
  if j = 0 then Except.error (PyErr.exc 7) else Except.ok 42

/-- A call behaviour whose every call raises. -/
def exFuncFails : Nat → Except PyErr Nat := fun _ => Except.error (PyErr.exc 9)

theorem retry_with_backoff_correct_witness :
    ((retry_with_backoff exFuncSucceeds 3 1).result = Except.ok 42 ∧
     (retry_with_backoff exFuncSucceeds 3 1).calls = 2) ∧
    ((retry_with_backoff exFuncFails 3 1).result =
        Except.error (PyErr.exc 9) ∧
     (retry_with_backoff exFuncFails 3 1).calls = 4) := by
  constructor
  · exact (retry_with_backoff_correct exFuncSucceeds 3 1 1 42 (PyErr.exc 9)).1
      (by decide)
      (fun j hj => by
        have : j = 0 := by omega
        subst this; decide)
      (by decide)
  · exact (retry_with_backoff_correct exFuncFails 3 1 0 42 (PyErr.exc 9)).2
      (fun j _ => rfl) rfl

/-- C3: the backoff is a fixed exponential schedule: a sleep occurs only
between two consecutive attempts (the number of sleeps is one less than the
number of calls, hence at most `max_retries`, and exactly `max_retries` when
every attempt fails), and the delay slept before retry `k` (0-based here, so
the claim's 1-based retry `k+1`) is `initial_delay * 2 ^ k`, doubling after
each sleep. -/
theorem retry_with_backoff_schedule {ε α : Type} (func : Nat → Except ε α)
    (max_retries : Nat) (initial_delay : ℚ) :
    (retry_with_backoff func max_retries initial_delay).sleeps.length =
      (retry_with_backoff func max_retries initial_delay).calls - 1 ∧
    (retry_with_backoff func max_retries initial_delay).calls ≤
      max_retries + 1 ∧
    (∀ k, k < (retry_with_backoff func max_retries initial_delay).sleeps.length →
      (retry_with_backoff func max_retries initial_delay).sleeps.getD k 0 =
        initial_delay * 2 ^ k) ∧
    ((∀ j, j ≤ max_retries → exceptIsError (func j) = true) →
      (retry_with_backoff func max_retries initial_delay).sleeps.length =
        max_retries) := by
  obtain ⟨hsl, hlo, hhi⟩ := retryAux_shape func max_retries 0 initial_delay
  rw [retry_with_backoff] at *
  refine ⟨by rw [hsl]; simp, hhi, ?_, ?_⟩
  · intro k hk
    rw [hsl] at hk ⊢
    simp only [List.length_map, List.length_range] at hk
    rw [List.getD_eq_getElem?_getD, List.getElem?_map, List.getElem?_range hk]
    rfl
  · intro hfail
    obtain ⟨e, he⟩ := (exceptIsError_iff (func max_retries)).1
      (hfail max_retries le_rfl)
    have h := retryAux_all_fail func max_retries 0 initial_delay e
      (fun j hj => by simpa using hfail j (Nat.le_of_lt hj)) (by simpa using he)
    rw [h]
    simp

theorem retry_with_backoff_schedule_witness :
    ((retry_with_backoff exFuncFails 3 1).sleeps.length =
       (retry_with_backoff exFuncFails 3 1).calls - 1 ∧
     (retry_with_backoff exFuncFails 3 1).calls ≤ 4) ∧
    (retry_with_backoff exFuncFails 3 1).sleeps.getD 2 0 = 1 * 2 ^ 2 ∧
    (retry_with_backoff exFuncFails 3 1).sleeps.length = 3 := by
  obtain ⟨h1, h2, h3, h4⟩ := retry_with_backoff_schedule exFuncFails 3 1
  exact ⟨⟨h1, h2⟩, h3 2 (by decide), h4 (fun j _ => rfl)⟩

/-!
## `check_s3_bucket_exists` / `check_dynamodb_table_exists`
(bootstrap/modules/state_storage/resource_utils.py)

```python
def check_s3_bucket_exists(bucket_name: str) -> bool:
    try:
        bucket_check = aws.s3.get_bucket_output(bucket=bucket_name)
        return True
    except Exception:
        return False
```

The provider lookup (`aws.s3.get_bucket_output` / `aws.dynamodb.get_table_output`)
is an external call that either returns a value or raises; it is embedded as
a parameter `String → Except PyErr β`.  The `try/except` makes the check a
total `Bool`-valued function of the lookup outcome.
-/

/-- The check `check_s3_bucket_exists(bucket_name)`. -/
def check_s3_bucket_exists {β : Type}
    (get_bucket_output : String → Except PyErr β) (bucket_name : String) :
    Bool :=
  match get_bucket_output bucket_name with
  | Except.ok _ => true
  | Except.error _ => false

/-- The check `check_dynamodb_table_exists(table_name)`. -/
def check_dynamodb_table_exists {γ : Type}
    (get_table_output : String → Except PyErr γ) (table_name : String) :
    Bool :=
  match get_table_output table_name with
  | Except.ok _ => true
  | Except.error _ => false

/-- C4: the existence checks are total at the public interface: they return
`true` exactly when the provider lookup of the named bucket/table succeeds
and `false` exactly when the lookup raises; being `Bool`-valued functions of
the lookup outcome (the two iffs cover every outcome), they never propagate
an exception to the caller. -/
theorem check_exists_total {β γ : Type}
    (get_bucket_output : String → Except PyErr β)
    (get_table_output : String → Except PyErr γ) (name : String) :
    (check_s3_bucket_exists get_bucket_output name = true ↔
      exceptIsOk (get_bucket_output name) = true) ∧
    (check_s3_bucket_exists get_bucket_output name = false ↔
      exceptIsError (get_bucket_output name) = true) ∧
    (check_dynamodb_table_exists get_table_output name = true ↔
      exceptIsOk (get_table_output name) = true) ∧
    (check_dynamodb_table_exists get_table_output name = false ↔
      exceptIsError (get_table_output name) = true) := by
  refine ⟨?_, ?_, ?_, ?_⟩
  · cases h : get_bucket_output name <;>
      simp [check_s3_bucket_exists, exceptIsOk, h]
  · cases h : get_bucket_output name <;>
      simp [check_s3_bucket_exists, exceptIsError, h]
  · cases h : get_table_output name <;>
      simp [check_dynamodb_table_exists, exceptIsOk, h]
  · cases h : get_table_output name <;>
      simp [check_dynamodb_table_exists, exceptIsError, h]

/-!
## `create_or_import_s3_bucket` / `create_or_import_dynamodb_table`
(bootstrap/modules/state_storage/resource_utils.py)

```python
if check_s3_bucket_exists(bucket_name):
    import_opts = pulumi.ResourceOptions(
        import_=bucket_name,
        **(opts.__dict__ if opts else {})
    )
    return aws.s3.Bucket(resource_name, bucket=bucket_name, tags=tags,
                         opts=import_opts)
else:
    return aws.s3.Bucket(resource_name, bucket=bucket_name, tags=tags,
                         opts=opts)
```

A constructed resource is embedded as a record of the constructor arguments.
-/

/-- A Python attribute value, as far as the claims need to distinguish
them. -/
inductive PyVal where
  | none
  | str (s : String)
  deriving DecidableEq, Repr

/-- Model of a `pulumi.ResourceOptions` object: its attribute dictionary
`__dict__` as an association list.  `ResourceOptions.__init__` assigns every
one of its keyword parameters — `import_` among them — onto `self`, so the
dictionary of any constructed `ResourceOptions` carries an `import_` entry
(value `None` unless set); the model keeps that fact as an invariant. -/
structure ResourceOptions where
  dict : List (String × PyVal)
  has_import : "import_" ∈ dict.map Prod.fst

/-- The splat `**(opts.__dict__ if opts else {})`: a `ResourceOptions`
object is always truthy in Python, `None` is falsy. -/
def optsSplat : Option ResourceOptions → List (String × PyVal)
  | Option.none => []
  | Option.some o => o.dict

/-- The call `pulumi.ResourceOptions(import_=v, **splat)`.  Python raises `TypeError`
("got multiple values for keyword argument") when a splatted key repeats an
explicitly passed keyword — here `import_`; otherwise the constructed
object's dictionary holds `import_ = v` together with the splatted
entries. -/
def mkImportOpts (v : String) (splat : List (String × PyVal)) :
    Except PyErr ResourceOptions :=
  if "import_" ∈ splat.map Prod.fst then Except.error PyErr.typeError
  else Except.ok ⟨("import_", PyVal.str v) :: splat, by simp⟩

/-- The constructor arguments of an `aws.s3.Bucket` resource. -/
structure S3Bucket where
  resource_name : String
  bucket : String
  tags : Option (List (String × String))
  opts : Option ResourceOptions

/-- The constructor arguments of one `aws.dynamodb.TableAttributeArgs`. -/
structure TableAttribute where
  name : String
  typ : String
  deriving DecidableEq, Repr

/-- The constructor arguments of an `aws.dynamodb.Table` resource. -/
structure DynamoTable where
  resource_name : String
  name : String
  billing_mode : String
  hash_key : String
  attributes : List TableAttribute
  tags : Option (List (String × String))
  opts : Option ResourceOptions

/-- The helper `create_or_import_s3_bucket(resource_name, bucket_name, tags, opts)`. -/
def create_or_import_s3_bucket {β : Type}
    (get_bucket_output : String → Except PyErr β)
    (resource_name bucket_name : String)
    (tags : Option (List (String × String)))
    (opts : Option ResourceOptions) : Except PyErr S3Bucket :=
  if check_s3_bucket_exists get_bucket_output bucket_name then
    match mkImportOpts bucket_name (optsSplat opts) with
    | Except.error e => Except.error e
    | Except.ok import_opts =>
      Except.ok { resource_name := resource_name, bucket := bucket_name,
                  tags := tags, opts := Option.some import_opts }
  else
    Except.ok { resource_name := resource_name, bucket := bucket_name,
                tags := tags, opts := opts }

/-- The helper `create_or_import_dynamodb_table(resource_name, table_name,
billing_mode, hash_key, attributes, tags, opts)`. -/
def create_or_import_dynamodb_table {γ : Type}
    (get_table_output : String → Except PyErr γ)
    (resource_name table_name billing_mode hash_key : String)
    (attributes : Option (List TableAttribute))
    (tags : Option (List (String × String)))
    (opts : Option ResourceOptions) : Except PyErr DynamoTable :=
  let attrs :=
    match attributes with
    | Option.none => [{ name := hash_key, typ := "S" : TableAttribute }]
    | Option.some a => a
  if check_dynamodb_table_exists get_table_output table_name then
    match mkImportOpts table_name (optsSplat opts) with
    | Except.error e => Except.error e
    | Except.ok import_opts =>
      Except.ok { resource_name := resource_name, name := table_name,
                  billing_mode := billing_mode, hash_key := hash_key,
                  attributes := attrs, tags := tags,
                  opts := Option.some import_opts }
  else
    Except.ok { resource_name := resource_name, name := table_name,
                billing_mode := billing_mode, hash_key := hash_key,
                attributes := attrs, tags := tags, opts := opts }

/-- The resource options carry an import directive naming `v`. -/
def importSetTo : Option ResourceOptions → String → Prop
  | Option.none, _ => False
  | Option.some o, v => o.dict.lookup "import_" = Option.some (PyVal.str v)

/-- C1: with `opts = None`, `create_or_import_s3_bucket` constructs the
bucket with import options (`import_` set to the bucket name) iff
`check_s3_bucket_exists` returns `true`, and otherwise constructs it fresh
without import options; in both branches the constructed resource receives
the same bucket name and tags.  The analogous iff holds for
`create_or_import_dynamodb_table` over `check_dynamodb_table_exists`, where
the attributes default to a single string attribute named after `hash_key`
when `attributes` is `None`. -/
theorem create_or_import_iff {β γ : Type}
    (get_bucket_output : String → Except PyErr β)
    (get_table_output : String → Except PyErr γ)
    (rn b t billing_mode hash_key : String)
    (tags : Option (List (String × String))) :
    (∃ bkt, create_or_import_s3_bucket get_bucket_output rn b tags
        Option.none = Except.ok bkt ∧
      (importSetTo bkt.opts b ↔
        check_s3_bucket_exists get_bucket_output b = true) ∧
      (bkt.opts = Option.none ↔
        check_s3_bucket_exists get_bucket_output b = false) ∧
      bkt.bucket = b ∧ bkt.tags = tags) ∧
    (∃ tbl, create_or_import_dynamodb_table get_table_output rn t
        billing_mode hash_key Option.none tags Option.none = Except.ok tbl ∧
      (importSetTo tbl.opts t ↔
        check_dynamodb_table_exists get_table_output t = true) ∧
      (tbl.opts = Option.none ↔
        check_dynamodb_table_exists get_table_output t = false) ∧
      tbl.name = t ∧ tbl.tags = tags ∧
      tbl.attributes = [{ name := hash_key, typ := "S" }]) := by
  constructor
  · cases hc : check_s3_bucket_exists get_bucket_output b with
    | true =>
      refine ⟨{ resource_name := rn, bucket := b, tags := tags,
                opts := Option.some ⟨[("import_", PyVal.str b)], by simp⟩ },
              ?_, ?_, ?_, rfl, rfl⟩
      · simp [create_or_import_s3_bucket, hc, mkImportOpts, optsSplat]
      · simp [importSetTo, hc, List.lookup]
      · simp [hc]
    | false =>
      exact ⟨{ resource_name := rn, bucket := b, tags := tags,
               opts := Option.none },
             by simp [create_or_import_s3_bucket, hc],
             by simp [importSetTo, hc], by simp [hc], rfl, rfl⟩
  · cases hc : check_dynamodb_table_exists get_table_output t with
    | true =>
      refine ⟨{ resource_name := rn, name := t, billing_mode := billing_mode,
                hash_key := hash_key,
                attributes := [{ name := hash_key, typ := "S" }],
                tags := tags,
                opts := Option.some ⟨[("import_", PyVal.str t)], by simp⟩ },
              ?_, ?_, ?_, rfl, rfl, rfl⟩
      · simp [create_or_import_dynamodb_table, hc, mkImportOpts, optsSplat]
      · simp [importSetTo, hc, List.lookup]
      · simp [hc]
    | false =>
      exact ⟨{ resource_name := rn, name := t, billing_mode := billing_mode,
               hash_key := hash_key,
               attributes := [{ name := hash_key, typ := "S" }],
               tags := tags, opts := Option.none },
             by simp [create_or_import_dynamodb_table, hc],
             by simp [importSetTo, hc], by simp [hc], rfl, rfl, rfl⟩

/-- C9: when the existence check succeeds and a non-`None`
`pulumi.ResourceOptions` is supplied, building the import options via
`ResourceOptions(import_=..., **opts.__dict__)` passes the `import_` keyword
twice (`opts.__dict__` already contains an `import_` entry) and the call
raises a `TypeError` instead of returning a resource — for both the S3 and
the DynamoDB helper. -/
theorem create_or_import_nonNone_opts_raises {β γ : Type}
    (get_bucket_output : String → Except PyErr β)
    (get_table_output : String → Except PyErr γ)
    (rn b t billing_mode hash_key : String)
    (attributes : Option (List TableAttribute))
    (tags : Option (List (String × String))) (o o' : ResourceOptions)
    (hb : check_s3_bucket_exists get_bucket_output b = true)
    (ht : check_dynamodb_table_exists get_table_output t = true) :
    create_or_import_s3_bucket get_bucket_output rn b tags
      (Option.some o) = Except.error PyErr.typeError ∧
    create_or_import_dynamodb_table get_table_output rn t billing_mode
      hash_key attributes tags (Option.some o') =
        Except.error PyErr.typeError := by
  constructor
  · simp [create_or_import_s3_bucket, hb, mkImportOpts, optsSplat,
      o.has_import]
  · simp [create_or_import_dynamodb_table, ht, mkImportOpts, optsSplat,
      o'.has_import]

/-- A provider lookup that always succeeds, for the C9 witness. -/
def lookupAlwaysOk : String → Except PyErr Unit := fun _ => Except.ok ()

/-- A `ResourceOptions` object as Python would build from
`ResourceOptions()`: every attribute assigned, `import_ = None`. -/
def plainOpts : ResourceOptions :=
  ⟨[("import_", PyVal.none)], by simp⟩

theorem create_or_import_nonNone_opts_raises_witness :
    check_s3_bucket_exists lookupAlwaysOk "b" = true ∧
    check_dynamodb_table_exists lookupAlwaysOk "t" = true ∧
    create_or_import_s3_bucket lookupAlwaysOk "rn" "b" Option.none
      (Option.some plainOpts) = Except.error PyErr.typeError ∧
    create_or_import_dynamodb_table lookupAlwaysOk "rn" "t"
      "PAY_PER_REQUEST" "LockID" Option.none Option.none
      (Option.some plainOpts) = Except.error PyErr.typeError := by
  obtain ⟨h1, h2⟩ := create_or_import_nonNone_opts_raises lookupAlwaysOk
    lookupAlwaysOk "rn" "b" "t" "PAY_PER_REQUEST" "LockID" Option.none
    Option.none plainOpts plainOpts rfl rfl
  exact ⟨rfl, rfl, h1, h2⟩

/-!
## OIDC issuer selection (infra-k8s/__main__.py)

```python
oidc_issuer_override = config.get("cluster_oidc_issuer")

def _derive_oidc_issuer(ci):
    try:
        if ci.identities and len(ci.identities) > 0:
            ident = ci.identities[0]
            if hasattr(ident, 'oidcs') and ident.oidcs and len(ident.oidcs) > 0 \
               and hasattr(ident.oidcs[0], 'issuer'):
                return ident.oidcs[0].issuer
            if hasattr(ident, 'oidc') and hasattr(ident.oidc, 'issuer'):
                return ident.oidc.issuer
    except Exception:
        return None
    return None

derived_oidc_issuer = _derive_oidc_issuer(cluster_info)
if oidc_issuer_override:
    oidc_issuer = oidc_issuer_override
elif derived_oidc_issuer:
    oidc_issuer = derived_oidc_issuer
else:
    raise Exception("Unable to determine OIDC issuer automatically. ...")
```
-/

/-- An OIDC entry of a cluster identity; `issuer = none` models an entry
that carries no `issuer` attribute (the `hasattr(..., 'issuer')` guard
fails on it). -/
structure OidcEntry where
  issuer : Option String
  deriving DecidableEq, Repr

/-- One entry of `GetClusterResult.identities`.  `oidcs` collapses the
guard `hasattr(ident, 'oidcs') and ident.oidcs and len(ident.oidcs) > 0`:
a missing attribute, `None` and `[]` all fail it identically, so all three
are the empty list.  `oidc = none` models a missing or `None` `oidc`
attribute (`hasattr(None, 'issuer')` is false). -/
structure ClusterIdentity where
  oidcs : List OidcEntry
  oidc : Option OidcEntry
  deriving DecidableEq, Repr

/-- The slice of `aws.eks.GetClusterResult` that the program reads. -/
structure GetClusterResult where
  identities : List ClusterIdentity
  deriving DecidableEq, Repr

/-- The `hasattr(ident, 'oidc') and hasattr(ident.oidc, 'issuer')` branch:
the issuer attribute of the `oidc` attribute, when both exist. -/
def oidcAttrIssuer : Option OidcEntry → Option String
  | Option.none => Option.none
  | Option.some entry => entry.issuer

/-- The function `_derive_oidc_issuer(ci)`.  All attribute accesses are behind
`hasattr`/truthiness guards, so the `except` arm is unreachable and the
function is total, returning `None` when no guarded path applies. -/
def derive_oidc_issuer (ci : GetClusterResult) : Option String :=
  match ci.identities with
  | [] => Option.none
  | ident :: _ =>
    match ident.oidcs with
    | entry :: _ =>
      match entry.issuer with
      | Option.some s => Option.some s
      | Option.none => oidcAttrIssuer ident.oidc
    | [] => oidcAttrIssuer ident.oidc

/-- Python truthiness of an optional string: `None` and `""` are falsy. -/
def pyTruthyStr : Option String → Bool
  | Option.none => false
  | Option.some s => !(s == "")

/-- The issuer-selection block of the program; raising the
`Exception("Unable to determine OIDC issuer automatically. ...")` becomes
`Except.error`. -/
def select_oidc_issuer (override : Option String) (ci : GetClusterResult) :
    Except String String :=
  if pyTruthyStr override then Except.ok (override.getD "")
  else if pyTruthyStr (derive_oidc_issuer ci) then
    Except.ok ((derive_oidc_issuer ci).getD "")
  else
    Except.error "Unable to determine OIDC issuer automatically. Provide config builder-space-k8s:cluster_oidc_issuer."

/-- C5 counterexample: with the override configured as the empty string
(`config.get` returns `""`, which is falsy) and a cluster description with
no identities, the override is present yet the program raises instead of
using it — so neither "a configured override is used whenever present" nor
"raises iff no override is configured and derivation yields None" holds as
stated. -/
theorem select_oidc_issuer_claim_false :
    (Option.some "").isSome = true ∧
    exceptIsError (select_oidc_issuer (Option.some "") ⟨[]⟩) = true := by
  decide

theorem pyTruthyStr_false_iff (x : Option String) :
    pyTruthyStr x = false ↔ (x = Option.none ∨ x = Option.some "") := by
  cases x with
  | none => simp [pyTruthyStr]
  | some s => simp [pyTruthyStr]

/-- The cluster description offers neither issuer shape: no identity, or
the first identity has neither a non-empty `oidcs` list whose head carries
an issuer nor an `oidc` attribute carrying an issuer. -/
def noOidcShape (ci : GetClusterResult) : Bool :=
  match ci.identities with
  | [] => true
  | ident :: _ =>
    (match ident.oidcs with
     | [] => true
     | entry :: _ => entry.issuer.isNone) &&
    (match ident.oidc with
     | Option.none => true
     | Option.some entry => entry.issuer.isNone)

/-- C5 (amended): a configured non-empty override is used whenever present;
otherwise the issuer derived from the cluster description —
`identities[0].oidcs[0].issuer` when the `oidcs` list is non-empty and its
head carries an issuer, falling back to `identities[0].oidc.issuer` — is
used when non-empty; `_derive_oidc_issuer` returns `None` (never raises —
it is total by construction) exactly on cluster descriptions where neither
shape is present; and the program raises if and only if the override is
absent or empty and derivation yields `None` or the empty string. -/
theorem select_oidc_issuer_spec (override : Option String)
    (ci : GetClusterResult) :
    (∀ s, override = Option.some s → s ≠ "" →
      select_oidc_issuer override ci = Except.ok s) ∧
    ((override = Option.none ∨ override = Option.some "") →
      ∀ s, derive_oidc_issuer ci = Option.some s → s ≠ "" →
        select_oidc_issuer override ci = Except.ok s) ∧
    (noOidcShape ci = true ↔ derive_oidc_issuer ci = Option.none) ∧
    (∀ ident rest entry es s, ci.identities = ident :: rest →
      ident.oidcs = entry :: es → entry.issuer = Option.some s →
      derive_oidc_issuer ci = Option.some s) ∧
    (∀ ident rest entry s, ci.identities = ident :: rest →
      (ident.oidcs = [] ∨
        ∃ e0 es, ident.oidcs = e0 :: es ∧ e0.issuer = Option.none) →
      ident.oidc = Option.some entry → entry.issuer = Option.some s →
      derive_oidc_issuer ci = Option.some s) ∧
    (exceptIsError (select_oidc_issuer override ci) = true ↔
      ((override = Option.none ∨ override = Option.some "") ∧
       (derive_oidc_issuer ci = Option.none ∨
        derive_oidc_issuer ci = Option.some ""))) := by
  refine ⟨?_, ?_, ?_, ?_, ?_, ?_⟩
  · intro s hs hne
    subst hs
    simp [select_oidc_issuer, pyTruthyStr, hne]
  · intro hov s hd hne
    have ho : pyTruthyStr override = false := (pyTruthyStr_false_iff _).2 hov
    simp only [select_oidc_issuer, ho, Bool.false_eq_true, if_false]
    simp [hd, pyTruthyStr, hne]
  · obtain ⟨ids⟩ := ci
    cases ids with
    | nil => simp [noOidcShape, derive_oidc_issuer]
    | cons ident rest =>
      cases hoidcs : ident.oidcs with
      | nil =>
        cases hoidc : ident.oidc with
        | none =>
          simp [noOidcShape, derive_oidc_issuer, hoidcs, hoidc, oidcAttrIssuer]
        | some entry =>
          cases hiss : entry.issuer <;>
            simp [noOidcShape, derive_oidc_issuer, hoidcs, hoidc,
              oidcAttrIssuer, hiss]
      | cons e0 es =>
        cases h0 : e0.issuer with
        | some s =>
          simp [noOidcShape, derive_oidc_issuer, hoidcs, h0]
        | none =>
          cases hoidc : ident.oidc with
          | none =>
            simp [noOidcShape, derive_oidc_issuer, hoidcs, hoidc,
              oidcAttrIssuer, h0]
          | some entry =>
            cases hiss : entry.issuer <;>
              simp [noOidcShape, derive_oidc_issuer, hoidcs, hoidc,
                oidcAttrIssuer, h0, hiss]
  · intro ident rest entry es s hids hoidcs hiss
    simp [derive_oidc_issuer, hids, hoidcs, hiss]
  · intro ident rest entry s hids hshape hoidc hiss
    rcases hshape with h | ⟨e0, es, he, h0⟩
    · simp [derive_oidc_issuer, hids, h, hoidc, oidcAttrIssuer, hiss]
    · simp [derive_oidc_issuer, hids, he, h0, hoidc, oidcAttrIssuer, hiss]
  · have key : ∀ x : Option String,
        (x = Option.none ∨ x = Option.some "") ↔ pyTruthyStr x = false :=
      fun x => (pyTruthyStr_false_iff x).symm
    rw [key, key]
    cases ho : pyTruthyStr override <;>
      cases hd : pyTruthyStr (derive_oidc_issuer ci) <;>
        simp [select_oidc_issuer, ho, hd, exceptIsError]

/-- A cluster description whose first identity carries the issuer in the
modern `oidcs` list shape, for the C5 witness. -/
def ciWithOidcs : GetClusterResult :=
  ⟨[{ oidcs := [{ issuer := Option.some "https://oidc.example/id/A" }],
      oidc := Option.none }]⟩

theorem select_oidc_issuer_spec_witness :
    select_oidc_issuer (Option.some "https://cfg.example") ⟨[]⟩ =
      Except.ok "https://cfg.example" ∧
    select_oidc_issuer Option.none ciWithOidcs =
      Except.ok "https://oidc.example/id/A" ∧
    exceptIsError (select_oidc_issuer Option.none ⟨[]⟩) = true := by
  refine ⟨?_, ?_, ?_⟩
  · exact (select_oidc_issuer_spec (Option.some "https://cfg.example")
      ⟨[]⟩).1 "https://cfg.example" rfl (by decide)
  · exact (select_oidc_issuer_spec Option.none ciWithOidcs).2.1
      (Or.inl rfl) "https://oidc.example/id/A" (by decide) (by decide)
  · exact ((select_oidc_issuer_spec Option.none ⟨[]⟩).2.2.2.2.2).2
      ⟨Or.inl rfl, Or.inl (by decide)⟩

/-!
## Multi-domain Auth0 program (infra-auth0/multi-domain-auth0.py)

The program iterates over fixed domain lists, creating one `auth.*` CNAME
per domain and accumulating callback/logout/origin URL lists.  The hosted
zone lookup `aws.route53.get_zone(name=f"{domain}.")` is embedded as a
parameter `zoneId : String → String` from the looked-up zone name to its
zone id.
-/

def ALL_DOMAINS : List String :=
  ["amano.services", "tekanya.services", "lightsphere.space",
   "sosolola.cloud"]

def INTERNAL_SUBDOMAINS : List String := ["k8s.lightsphere.space"]

def AUTH_SUBDOMAIN : String := "auth"

/-- The fixed Auth0 edge endpoint every CNAME points at. -/
def AUTH0_EDGE_TARGET : String :=
  "tekanya-cd-edaow2ksjrrcfbe8.edge.tenants.eu.auth0.com"

/-- The constructor arguments of an `aws.route53.Record` resource
(`record_type` embeds the `type` keyword). -/
structure Route53Record where
  resource_name : String
  zone_id : String
  name : String
  record_type : String
  ttl : Nat
  records : List String
  deriving DecidableEq, Repr

/-- The `route53_records` dict: one `auth.*` CNAME per domain of
`ALL_DOMAINS`, keyed by the domain. -/
def route53_records (zoneId : String → String) :
    List (String × Route53Record) :=
  ALL_DOMAINS.map (fun domain =>
    (domain,
     { resource_name := "auth-" ++ (domain.replace "." "-"),
       zone_id := zoneId (domain ++ "."),
       name := AUTH_SUBDOMAIN,
       record_type := "CNAME",
       ttl := 300,
       records := [AUTH0_EDGE_TARGET] }))

/-- The list `callback_urls`: the `auth.*` callback of every domain of
`ALL_DOMAINS`, then of every entry of `INTERNAL_SUBDOMAINS`. -/
def callback_urls : List String :=
  ALL_DOMAINS.map (fun domain =>
    "https://" ++ (AUTH_SUBDOMAIN ++ "." ++ domain) ++ "/oauth2/callback") ++
  INTERNAL_SUBDOMAINS.map (fun subdomain =>
    "https://" ++ (AUTH_SUBDOMAIN ++ "." ++ subdomain) ++ "/oauth2/callback")

/-- The list `logout_urls`, accumulated by the same two loops. -/
def logout_urls : List String :=
  ALL_DOMAINS.map (fun domain =>
    "https://" ++ (AUTH_SUBDOMAIN ++ "." ++ domain)) ++
  INTERNAL_SUBDOMAINS.map (fun subdomain =>
    "https://" ++ (AUTH_SUBDOMAIN ++ "." ++ subdomain))

/-- The list `web_origins`, accumulated by the same two loops. -/
def web_origins : List String :=
  ALL_DOMAINS.map (fun domain =>
    "https://" ++ (AUTH_SUBDOMAIN ++ "." ++ domain)) ++
  INTERNAL_SUBDOMAINS.map (fun subdomain =>
    "https://" ++ (AUTH_SUBDOMAIN ++ "." ++ subdomain))

/-- C6: for every domain `d` of `ALL_DOMAINS` there is exactly one Route53
record keyed by `d`, a CNAME with TTL 300 in `d`'s hosted zone whose single
target is the fixed Auth0 edge endpoint; `callback_urls` holds exactly one
entry `https://auth.<d>/oauth2/callback` per element of `ALL_DOMAINS`
followed by one per element of `INTERNAL_SUBDOMAINS`, with `logout_urls`
and `web_origins` holding `https://auth.<d>` in the same order, so each of
the three lists has length `4 + 1 = 5`. -/
theorem multi_domain_auth0_spec (zoneId : String → String) :
    (∀ d, d ∈ ALL_DOMAINS →
      (route53_records zoneId).filter (fun p => p.1 == d) =
        [(d, { resource_name := "auth-" ++ (d.replace "." "-"),
               zone_id := zoneId (d ++ "."),
               name := AUTH_SUBDOMAIN,
               record_type := "CNAME",
               ttl := 300,
               records := [AUTH0_EDGE_TARGET] })] ∧
      ((route53_records zoneId).filter (fun p => p.1 == d)).length = 1) ∧
    callback_urls = (ALL_DOMAINS ++ INTERNAL_SUBDOMAINS).map
      (fun d => "https://auth." ++ d ++ "/oauth2/callback") ∧
    logout_urls = (ALL_DOMAINS ++ INTERNAL_SUBDOMAINS).map
      (fun d => "https://auth." ++ d) ∧
    web_origins = (ALL_DOMAINS ++ INTERNAL_SUBDOMAINS).map
      (fun d => "https://auth." ++ d) ∧
    callback_urls.length = ALL_DOMAINS.length + INTERNAL_SUBDOMAINS.length ∧
    logout_urls.length = 5 ∧ web_origins.length = 5 ∧
    ALL_DOMAINS.length + INTERNAL_SUBDOMAINS.length = 5 := by
  refine ⟨?_, by decide, by decide, by decide, by decide, by decide,
    by decide, by decide⟩
  intro d hd
  fin_cases hd <;>
    refine ⟨?_, ?_⟩ <;>
      simp +decide [route53_records, ALL_DOMAINS, AUTH_SUBDOMAIN,
        AUTH0_EDGE_TARGET, List.filter]

theorem multi_domain_auth0_spec_witness :
    "amano.services" ∈ ALL_DOMAINS ∧
    (route53_records (fun _ => "ZONE")).filter
        (fun p => p.1 == "amano.services") =
      [("amano.services",
        { resource_name := "auth-" ++ ("amano.services".replace "." "-"),
          zone_id := (fun _ : String => "ZONE") ("amano.services" ++ "."),
          name := AUTH_SUBDOMAIN, record_type := "CNAME", ttl := 300,
          records := [AUTH0_EDGE_TARGET] })] ∧
    callback_urls.length = 5 := by
  have h := multi_domain_auth0_spec (fun _ => "ZONE")
  exact ⟨by decide, (h.1 "amano.services" (by decide)).1,
    h.2.2.2.2.1.trans h.2.2.2.2.2.2.2⟩

/-!
## `create_kms_key` / `create_eks_resources` (modules/eks/functions.py)

```python
def create_kms_key(name, existing_key_arn="", tags=None):
    if existing_key_arn:
        return existing_key_arn
    kms_key = aws.kms.Key(f"{name}-eks-kms-key", ...)
    kms_alias = aws.kms.Alias(f"{name}-eks-kms-alias",
                              name=f"alias/{name}-eks", ...)
    return kms_key.arn
```

and inside `create_eks_resources`:

```python
kms_key_arn = create_kms_key(
    cluster_name,
    existing_kms_key_arn if use_existing_kms_key else "",
    tags
)
```

The provider-assigned ARN of a newly created key is embedded as the
parameter `freshArn` of the created key's resource name.  The embedding
returns the ARN passed on to the cluster's encryption config together with
the list of KMS resources constructed.
-/

/-- A KMS resource created by `create_kms_key`. -/
inductive KmsResource where
  | key (resource_name : String)
  | keyAlias (resource_name name : String)
  deriving DecidableEq, Repr

/-- The helper `create_kms_key(name, existing_key_arn)`; `if existing_key_arn:` is
Python string truthiness. -/
def create_kms_key (freshArn : String → String) (name : String)
    (existing_key_arn : String) : String × List KmsResource :=
  if existing_key_arn ≠ "" then (existing_key_arn, [])
  else
    (freshArn (name ++ "-eks-kms-key"),
     [KmsResource.key (name ++ "-eks-kms-key"),
      KmsResource.keyAlias (name ++ "-eks-kms-alias")
        ("alias/" ++ name ++ "-eks")])

/-- The KMS slice of `create_eks_resources`: the ARN it hands to
`create_eks_cluster`'s encryption config, and the KMS resources created. -/
def create_eks_resources_kms (freshArn : String → String)
    (cluster_name : String) (use_existing_kms_key : Bool)
    (existing_kms_key_arn : String) : String × List KmsResource :=
  create_kms_key freshArn cluster_name
    (if use_existing_kms_key then existing_kms_key_arn else "")

/-- C7: a pre-existing KMS key is used iff `use_existing_kms_key` is `True`
and `existing_kms_key_arn` is non-empty; then the given ARN is returned
unchanged and no KMS key or alias is created; in every other case a new key
and alias are created and the new key's ARN is the one passed to the
cluster. -/
theorem create_eks_resources_kms_spec (freshArn : String → String)
    (cluster_name existing_kms_key_arn : String)
    (use_existing_kms_key : Bool) :
    (use_existing_kms_key = true ∧ existing_kms_key_arn ≠ "" →
      create_eks_resources_kms freshArn cluster_name use_existing_kms_key
        existing_kms_key_arn = (existing_kms_key_arn, [])) ∧
    (¬(use_existing_kms_key = true ∧ existing_kms_key_arn ≠ "") →
      create_eks_resources_kms freshArn cluster_name use_existing_kms_key
        existing_kms_key_arn =
        (freshArn (cluster_name ++ "-eks-kms-key"),
         [KmsResource.key (cluster_name ++ "-eks-kms-key"),
          KmsResource.keyAlias (cluster_name ++ "-eks-kms-alias")
            ("alias/" ++ cluster_name ++ "-eks")])) ∧
    ((create_eks_resources_kms freshArn cluster_name use_existing_kms_key
        existing_kms_key_arn).2 = [] ↔
      (use_existing_kms_key = true ∧ existing_kms_key_arn ≠ "")) := by
  cases use_existing_kms_key <;>
    by_cases h : existing_kms_key_arn = "" <;>
      simp [create_eks_resources_kms, create_kms_key, h]

theorem create_eks_resources_kms_spec_witness :
    create_eks_resources_kms (fun s => "arn:new/" ++ s) "c" true
      "arn:aws:kms:eu:k" = ("arn:aws:kms:eu:k", []) ∧
    create_eks_resources_kms (fun s => "arn:new/" ++ s) "c" true "" =
      ((fun s => "arn:new/" ++ s) ("c" ++ "-eks-kms-key"),
       [KmsResource.key ("c" ++ "-eks-kms-key"),
        KmsResource.keyAlias ("c" ++ "-eks-kms-alias")
          ("alias/" ++ "c" ++ "-eks")]) ∧
    create_eks_resources_kms (fun s => "arn:new/" ++ s) "c" false
      "arn:aws:kms:eu:k" =
      ((fun s => "arn:new/" ++ s) ("c" ++ "-eks-kms-key"),
       [KmsResource.key ("c" ++ "-eks-kms-key"),
        KmsResource.keyAlias ("c" ++ "-eks-kms-alias")
          ("alias/" ++ "c" ++ "-eks")]) := by
  refine ⟨?_, ?_, ?_⟩
  · exact (create_eks_resources_kms_spec (fun s => "arn:new/" ++ s) "c"
      "arn:aws:kms:eu:k" true).1 ⟨rfl, by decide⟩
  · exact (create_eks_resources_kms_spec (fun s => "arn:new/" ++ s) "c"
      "" true).2.1 (by simp)
  · exact (create_eks_resources_kms_spec (fun s => "arn:new/" ++ s) "c"
      "arn:aws:kms:eu:k" false).2.1 (by simp)

/-!
## `create_eks_addons` (modules/eks/functions.py)

Starting from `addons = {}`, each of the three `if enable_*:` blocks inserts
one `aws.eks.Addon` under the keys `vpc_cni` / `coredns` / `kube_proxy`;
the coredns addon gets `opts=ResourceOptions(depends_on=[node_group])` when
`if node_group:` is truthy (a resource object is truthy, `None` is not),
and a fresh `ResourceOptions()` otherwise.
-/

/-- The constructor arguments of an `aws.eks.Addon`;
`depends_on_node_group` records whether the addon was constructed with
`depends_on=[node_group]`. -/
structure EksAddon where
  resource_name : String
  addon_name : String
  depends_on_node_group : Bool
  deriving DecidableEq, Repr

/-- The helper `create_eks_addons(name, cluster_name, enable_vpc_cni, enable_coredns,
enable_kube_proxy, node_group, tags)`: the returned `addons` dict as an
association list in insertion order; the node group argument is
`Option Unit` (`none` models Python `None`). -/
def create_eks_addons (name : String)
    (enable_vpc_cni enable_coredns enable_kube_proxy : Bool)
    (node_group : Option Unit) : List (String × EksAddon) :=
  (if enable_vpc_cni then
    [("vpc_cni", { resource_name := name ++ "-vpc-cni-addon",
                   addon_name := "vpc-cni",
                   depends_on_node_group := false })]
   else []) ++
  (if enable_coredns then
    [("coredns", { resource_name := name ++ "-coredns-addon",
                   addon_name := "coredns",
                   depends_on_node_group := node_group.isSome })]
   else []) ++
  (if enable_kube_proxy then
    [("kube_proxy", { resource_name := name ++ "-kube-proxy-addon",
                      addon_name := "kube-proxy",
                      depends_on_node_group := false })]
   else [])

/-- C8: the addons dict contains the key `vpc_cni` / `coredns` /
`kube_proxy` iff the corresponding flag is `True` (and no other keys), and
the coredns addon is constructed with a `depends_on` on the node group
exactly when a non-`None` `node_group` is supplied. -/
theorem create_eks_addons_spec (name : String)
    (enable_vpc_cni enable_coredns enable_kube_proxy : Bool)
    (node_group : Option Unit) :
    ((create_eks_addons name enable_vpc_cni enable_coredns enable_kube_proxy
        node_group).lookup "vpc_cni" =
      if enable_vpc_cni then
        Option.some { resource_name := name ++ "-vpc-cni-addon",
                      addon_name := "vpc-cni",
                      depends_on_node_group := false }
      else Option.none) ∧
    ((create_eks_addons name enable_vpc_cni enable_coredns enable_kube_proxy
        node_group).lookup "coredns" =
      if enable_coredns then
        Option.some { resource_name := name ++ "-coredns-addon",
                      addon_name := "coredns",
                      depends_on_node_group := node_group.isSome }
      else Option.none) ∧
    ((create_eks_addons name enable_vpc_cni enable_coredns enable_kube_proxy
        node_group).lookup "kube_proxy" =
      if enable_kube_proxy then
        Option.some { resource_name := name ++ "-kube-proxy-addon",
                      addon_name := "kube-proxy",
                      depends_on_node_group := false }
      else Option.none) ∧
    (∀ k, k ∈ (create_eks_addons name enable_vpc_cni enable_coredns
        enable_kube_proxy node_group).map Prod.fst ↔
      ((k = "vpc_cni" ∧ enable_vpc_cni = true) ∨
       (k = "coredns" ∧ enable_coredns = true) ∨
       (k = "kube_proxy" ∧ enable_kube_proxy = true))) := by
  cases enable_vpc_cni <;> cases enable_coredns <;>
    cases enable_kube_proxy <;>
      refine ⟨?_, ?_, ?_, fun k => ?_⟩ <;>
        simp +decide [create_eks_addons, List.lookup]

/-!
## `create_public_subnets` / `create_vpc_resources` (modules/vpc/functions.py)

```python
subnets = []
for i, cidr in enumerate(subnet_cidrs):
    subnet = aws.ec2.Subnet(
        f"{name}-public-subnet-{i+1}",
        vpc_id=vpc_id,
        cidr_block=cidr,
        availability_zone=availability_zones[i],
        ...
    )
    subnets.append(subnet)
```

`create_vpc_resources` calls this with
`aws.get_availability_zones(state="available").names` as
`availability_zones`.  The list indexing `availability_zones[i]` raises
`IndexError` when `i` is out of range; the subnets constructed before that
point already exist, so the embedding returns the constructed subnets
together with the optional error.
-/

/-- The constructor arguments of one `aws.ec2.Subnet`. -/
structure Subnet where
  resource_name : String
  cidr_block : String
  availability_zone : String
  deriving DecidableEq, Repr

/-- The subnet-creation loop, starting at index `i` with `cidrs` the CIDRs
still to process: the subnets constructed, and the `IndexError` when the
availability-zone indexing failed. -/
def subnetLoop (name : String) (availability_zones : List String) :
    Nat → List String → List Subnet × Option PyErr
  | _, [] => ([], Option.none)
  | i, cidr :: rest =>
    match availability_zones.get? i with
    | Option.none => ([], Option.some PyErr.indexError)
    | Option.some az =>
      let t := subnetLoop name availability_zones (i + 1) rest
      ({ resource_name := name ++ "-public-subnet-" ++ toString (i + 1),
         cidr_block := cidr, availability_zone := az } :: t.1, t.2)

/-- The helper `create_public_subnets(name, vpc_id, subnet_cidrs, availability_zones,
tags)`. -/
def create_public_subnets (name : String)
    (subnet_cidrs availability_zones : List String) :
    List Subnet × Option PyErr :=
  subnetLoop name availability_zones 0 subnet_cidrs

theorem subnetLoop_complete (name : String) (azs : List String) :
    ∀ (cidrs : List String) (i : Nat), i + cidrs.length ≤ azs.length →
    (subnetLoop name azs i cidrs).2 = Option.none ∧
    (subnetLoop name azs i cidrs).1.length = cidrs.length ∧
    ∀ j, j < cidrs.length →
      (subnetLoop name azs i cidrs).1.get? j =
        Option.some
          { resource_name := name ++ "-public-subnet-" ++ toString (i + j + 1),
            cidr_block := cidrs.getD j "",
            availability_zone := azs.getD (i + j) "" } := by
  intro cidrs
  induction cidrs with
  | nil =>
    intro i _
    exact ⟨rfl, rfl, fun j hj => absurd hj (by simp)⟩
  | cons cidr rest ih =>
    intro i hle
    have hi : i < azs.length := by
      simp only [List.length_cons] at hle; omega
    have hget : azs.get? i = Option.some (azs.get ⟨i, hi⟩) :=
      List.get?_eq_get hi
    obtain ⟨h2, hlen, hj⟩ := ih (i + 1) (by
      simp only [List.length_cons] at hle; omega)
    refine ⟨?_, ?_, ?_⟩
    · simp only [subnetLoop, hget]
      exact h2
    · simp only [subnetLoop, hget, List.length_cons, hlen]
    · intro j hjlt
      cases j with
      | zero =>
        simp only [subnetLoop, hget, List.get?, Nat.add_zero,
          List.getD_cons_zero, List.getD_eq_getElem?_getD,
          List.getElem?_cons_zero, List.getElem?_eq_getElem hi,
          Option.getD_some, List.get_eq_getElem]
      | succ j' =>
        simp only [subnetLoop, hget, List.get?]
        have hrec := hj j' (by simp only [List.length_cons] at hjlt; omega)
        rw [hrec]
        have e1 : i + 1 + j' = i + (j' + 1) := by omega
        rw [e1]
        simp [List.getD_cons_succ]

theorem subnetLoop_overflow (name : String) (azs : List String) :
    ∀ (cidrs : List String) (i : Nat), i ≤ azs.length →
    azs.length < i + cidrs.length →
    (subnetLoop name azs i cidrs).2 = Option.some PyErr.indexError ∧
    (subnetLoop name azs i cidrs).1.length = azs.length - i := by
  intro cidrs
  induction cidrs with
  | nil =>
    intro i hle hlt
    exfalso
    rw [List.length_nil] at hlt
    omega
  | cons cidr rest ih =>
    intro i hle hlt
    by_cases hi : i < azs.length
    · have hget : azs.get? i = Option.some (azs.get ⟨i, hi⟩) :=
        List.get?_eq_get hi
      obtain ⟨h2, hlen⟩ := ih (i + 1) (by omega) (by
        simp only [List.length_cons] at hlt; omega)
      constructor
      · simp only [subnetLoop, hget]
        exact h2
      · simp only [subnetLoop, hget, List.length_cons, hlen]
        omega
    · have hget : azs.get? i = Option.none :=
        List.get?_eq_none.2 (by omega)
      constructor
      · simp only [subnetLoop, hget]
      · simp only [subnetLoop, hget, List.length_nil]
        omega

/-- C10: `create_public_subnets` creates exactly one subnet per entry of
`subnet_cidrs`, pairing the `j`-th CIDR with `availability_zones[j]`, under
the precondition that there are at least as many availability zones as
CIDRs; when the availability-zone list (as passed by `create_vpc_resources`
from the region's available zones) is shorter than the CIDR list, the
indexing fails with an `IndexError` and only the first
`availability_zones.length` subnets are created, not the remaining ones. -/
theorem create_public_subnets_spec (name : String)
    (subnet_cidrs availability_zones : List String) :
    (subnet_cidrs.length ≤ availability_zones.length →
      (create_public_subnets name subnet_cidrs availability_zones).2 =
        Option.none ∧
      (create_public_subnets name subnet_cidrs availability_zones).1.length =
        subnet_cidrs.length ∧
      ∀ j, j < subnet_cidrs.length →
        (create_public_subnets name subnet_cidrs
            availability_zones).1.get? j =
          Option.some
            { resource_name := name ++ "-public-subnet-" ++ toString (j + 1),
              cidr_block := subnet_cidrs.getD j "",
              availability_zone := availability_zones.getD j "" }) ∧
    (availability_zones.length < subnet_cidrs.length →
      (create_public_subnets name subnet_cidrs availability_zones).2 =
        Option.some PyErr.indexError ∧
      (create_public_subnets name subnet_cidrs availability_zones).1.length =
        availability_zones.length) := by
  constructor
  · intro hle
    obtain ⟨h2, hlen, hj⟩ := subnetLoop_complete name availability_zones
      subnet_cidrs 0 (by omega)
    refine ⟨h2, hlen, fun j hjlt => ?_⟩
    have := hj j hjlt
    simpa [Nat.zero_add] using this
  · intro hlt
    obtain ⟨h2, hlen⟩ := subnetLoop_overflow name availability_zones
      subnet_cidrs 0 (by omega) (by omega)
    exact ⟨h2, by simpa using hlen⟩

theorem create_public_subnets_spec_witness :
    (create_public_subnets "vpc" ["10.0.1.0/24", "10.0.2.0/24"]
        ["eu-a", "eu-b", "eu-c"]).2 = Option.none ∧
    (create_public_subnets "vpc" ["10.0.1.0/24", "10.0.2.0/24"]
        ["eu-a", "eu-b", "eu-c"]).1.get? 1 =
      Option.some
        { resource_name := "vpc" ++ "-public-subnet-" ++ toString (1 + 1),
          cidr_block := ["10.0.1.0/24", "10.0.2.0/24"].getD 1 "",
          availability_zone := ["eu-a", "eu-b", "eu-c"].getD 1 "" } ∧
    (create_public_subnets "vpc" ["10.0.1.0/24", "10.0.2.0/24"]
        ["eu-a"]).2 = Option.some PyErr.indexError ∧
    (create_public_subnets "vpc" ["10.0.1.0/24", "10.0.2.0/24"]
        ["eu-a"]).1.length = 1 := by
  have h1 := (create_public_subnets_spec "vpc" ["10.0.1.0/24", "10.0.2.0/24"]
    ["eu-a", "eu-b", "eu-c"]).1 (by decide)
  have h2 := (create_public_subnets_spec "vpc" ["10.0.1.0/24", "10.0.2.0/24"]
    ["eu-a"]).2 (by decide)
  exact ⟨h1.1, h1.2.2 1 (by decide), h2.1, h2.2⟩
